import Mathlib

/-!
Verification of the pipe-framing protocol and command-dispatch loop of the
Marvel Rivals G-Assist plugin (src/python/plugin.py), via a shallow embedding
of the Python code in Lean.

Modelling conventions:
  * Python values that can appear in this program (JSON data, handler
    parameters, responses) are modelled by the inductive type PyVal.
  * Python dictionaries are association lists in insertion order, which is
    exactly the observable behaviour of CPython dicts.
  * Python exceptions are modelled by the Except monad over PyErr; a Python
    function that may raise returns Except PyErr _.
  * Machine-level I/O (ReadFile / WriteFile, the config file, HTTP requests)
    is modelled by explicit environments: a script of low-level pipe reads,
    and an HEnv record holding the config-file state and the HTTP collaborator.
-/

/-- Python values as they occur in plugin.py: JSON data decoded by json.loads,
handler parameters, and response dictionaries. -/
inductive PyVal where
  | none
  | bool (b : Bool)
  | int (n : Int)
  | str (s : String)
  | list (xs : List PyVal)
  | dict (d : List (String × PyVal))

/-- Python exceptions raised by the code paths of plugin.py. -/
inductive PyErr where
  | attributeError (msg : String)
  | unboundLocalError (msg : String)
  | typeError (msg : String)
  | keyError (msg : String)
  | valueError (msg : String)
  | zeroDivisionError
  | timeout
  | exc (msg : String)
deriving DecidableEq, Repr

/-- Lookup in a Python dict (association list, first binding wins; CPython
dicts have unique keys so at most one binding per key ever exists). -/
def dictLookup : List (String × PyVal) → String → Option PyVal
  | [], _ => Option.none
  | (k0, v0) :: d, k => if k0 = k then some v0 else dictLookup d k

/-- Assignment d[k] = v on a Python dict: overwrite in place if the key is
present (keeping its position), else append, as CPython insertion order does. -/
def dictSet : List (String × PyVal) → String → PyVal → List (String × PyVal)
  | [], k, v => [(k, v)]
  | (k0, v0) :: d, k, v => if k0 = k then (k, v) :: d else (k0, v0) :: dictSet d k v

/-- Python truthiness: bool(v) for the values of this program. -/
def pyTruthy : PyVal → Bool
  | PyVal.none => false
  | PyVal.bool b => b
  | PyVal.int n => n ≠ 0
  | PyVal.str s => ¬ s.isEmpty
  | PyVal.list xs => ¬ xs.isEmpty
  | PyVal.dict d => ¬ d.isEmpty

/-- Name of the Python type of a value, as it appears in exception messages. -/
def pyTypeName : PyVal → String
  | PyVal.none => "NoneType"
  | PyVal.bool _ => "bool"
  | PyVal.int _ => "int"
  | PyVal.str _ => "str"
  | PyVal.list _ => "list"
  | PyVal.dict _ => "dict"

mutual

/-- JSON serialization with CPython json.dumps defaults: separators are
a comma-space and a colon-space, keys and strings double-quoted. -/
def dumps : PyVal → String
  | PyVal.none => "null"
  | PyVal.bool true => "true"
  | PyVal.bool false => "false"
  | PyVal.int n => toString n
  | PyVal.str s => "\"" ++ s ++ "\""
  | PyVal.list xs => "[" ++ dumpsList xs ++ "]"
  | PyVal.dict d => "\x7b" ++ dumpsDict d ++ "\x7d"

/-- Elements of a JSON array, comma-space separated. -/
def dumpsList : List PyVal → String
  | [] => ""
  | [x] => dumps x
  | x :: y :: xs => dumps x ++ ", " ++ dumpsList (y :: xs)

/-- Members of a JSON object, comma-space separated, colon-space after keys. -/
def dumpsDict : List (String × PyVal) → String
  | [] => ""
  | [(k, v)] => "\"" ++ k ++ "\": " ++ dumps v
  | (k, v) :: e :: d => "\"" ++ k ++ "\": " ++ dumps v ++ ", " ++ dumpsDict (e :: d)

end

/-- Python str(v). For strings, numbers, booleans and None this is exact;
containers are rendered JSON-style (CPython repr uses single quotes, a
difference no verified path depends on: str() of a container is only reached
while building an error message whose construction itself then raises). -/
def pyStrOf : PyVal → String
  | PyVal.str s => s
  | PyVal.int n => toString n
  | PyVal.bool true => "True"
  | PyVal.bool false => "False"
  | PyVal.none => "None"
  | v => dumps v

/-- Python v.copy(): dicts and lists have a copy method; str, int, bool and
None do not, so calling copy on them raises AttributeError. This is the method
call performed by generate_success_response / generate_failure_response
(plugin.py lines 184 and 196) on their body argument. -/
def pyCopy : PyVal → Except PyErr PyVal
  | PyVal.dict d => Except.ok (PyVal.dict d)
  | PyVal.list xs => Except.ok (PyVal.list xs)
  | v => Except.error (PyErr.attributeError
      ("\x27" ++ pyTypeName v ++ "\x27 object has no attribute \x27copy\x27"))

/-- Python subscript assignment v[k] = x for a string key: valid on dicts,
TypeError otherwise. -/
def pySetItem (v : PyVal) (k : String) (x : PyVal) : Except PyErr PyVal :=
  match v with
  | PyVal.dict d => Except.ok (PyVal.dict (dictSet d k x))
  | w => Except.error (PyErr.typeError
      ("\x27" ++ pyTypeName w ++ "\x27 object does not support item assignment"))

/-- Substring test: needle occurs contiguously in hay (used to model the
Python in operator on strings). -/
def strIncludes (needle hay : String) : Bool :=
  (List.range (hay.length + 1)).any fun i => needle.data.isPrefixOf (hay.data.drop i)

/-- Python membership test k in v for a string k: key lookup on dicts,
substring test on strings, element search on lists, TypeError otherwise
(plugin.py lines 79, 82, 89, 307, 364). -/
def pyContainsKey (k : String) (v : PyVal) : Except PyErr Bool :=
  match v with
  | PyVal.dict d => Except.ok (dictLookup d k).isSome
  | PyVal.str s => Except.ok (strIncludes k s)
  | PyVal.list xs => Except.ok (xs.any fun x =>
      match x with
      | PyVal.str s => s = k
      | _ => false)
  | w => Except.error (PyErr.typeError
      ("argument of type \x27" ++ pyTypeName w ++ "\x27 is not iterable"))

/-- Python subscript read v[k] for a string key: dict lookup with KeyError
when absent, TypeError on non-dicts (the program only subscripts after a
successful membership test). -/
def pyGetItem (v : PyVal) (k : String) : Except PyErr PyVal :=
  match v with
  | PyVal.dict d =>
    match dictLookup d k with
    | some x => Except.ok x
    | Option.none => Except.error (PyErr.keyError k)
  | PyVal.str _ => Except.error (PyErr.typeError ("string indices must be integers"))
  | w => Except.error (PyErr.typeError
      ("\x27" ++ pyTypeName w ++ "\x27 object is not subscriptable"))

/-- Python v.get(k) with default None: only dicts have a get method. -/
def pyDictGet (v : PyVal) (k : String) : Except PyErr PyVal :=
  match v with
  | PyVal.dict d => Except.ok ((dictLookup d k).getD PyVal.none)
  | w => Except.error (PyErr.attributeError
      ("\x27" ++ pyTypeName w ++ "\x27 object has no attribute \x27get\x27"))

/-- Python v.get(k, default) with an explicit default. -/
def pyDictGetD (v : PyVal) (k : String) (dflt : PyVal) : Except PyErr PyVal :=
  match v with
  | PyVal.dict d => Except.ok ((dictLookup d k).getD dflt)
  | w => Except.error (PyErr.attributeError
      ("\x27" ++ pyTypeName w ++ "\x27 object has no attribute \x27get\x27"))

/-- Python a or b: a if a is truthy, else b. -/
def pyOr (a b : PyVal) : PyVal :=
  if pyTruthy a then a else b

/-- Python iteration over a value: lists yield elements, strings yield their
characters as one-character strings, dicts yield their keys; anything else
raises TypeError (for tool_calls iteration in main, plugin.py line 81). -/
def pyIter : PyVal → Except PyErr (List PyVal)
  | PyVal.list xs => Except.ok xs
  | PyVal.str s => Except.ok (s.data.map fun c => PyVal.str (String.mk [c]))
  | PyVal.dict d => Except.ok (d.map fun e => PyVal.str e.fst)
  | w => Except.error (PyErr.typeError
      ("\x27" ++ pyTypeName w ++ "\x27 object is not iterable"))

/-- Message carried by str(e) for a modelled exception, as interpolated into
f-strings by the handlers of plugin.py. -/
def errStr : PyErr → String
  | PyErr.attributeError m => m
  | PyErr.unboundLocalError m => m
  | PyErr.typeError m => m
  | PyErr.keyError m => "\x27" ++ m ++ "\x27"
  | PyErr.valueError m => m
  | PyErr.zeroDivisionError => "division by zero"
  | PyErr.timeout => "timeout"
  | PyErr.exc m => m

/-- Response builder generate_failure_response (plugin.py lines 176-186):
copy the body (dict() when None), then set response[\x27success\x27] = False.
Passing a non-dict, non-list body (e.g. a plain string, as main and the
lifecycle handlers do) makes the .copy() call raise AttributeError. -/
def generate_failure_response (body : Option PyVal) : Except PyErr PyVal := do
  let response ← match body with
    | some b => pyCopy b
    | Option.none => pure (PyVal.dict [])
  pySetItem response ("success") (PyVal.bool false)

/-- Response builder generate_success_response (plugin.py lines 188-198):
copy the body (dict() when None), then set response[\x27success\x27] = True. -/
def generate_success_response (body : Option PyVal) : Except PyErr PyVal := do
  let response ← match body with
    | some b => pyCopy b
    | Option.none => pure (PyVal.dict [])
  pySetItem response ("success") (PyVal.bool true)

/-- Handler execute_initialize_command (plugin.py lines 262-275): returns
generate_success_response applied to the plain string initialize-success
message (not a dict). -/
def execute_initialize_command : Except PyErr PyVal :=
  generate_success_response (some (PyVal.str ("initialize success.")))

/-- Handler execute_shutdown_command (plugin.py lines 277-291): returns
generate_success_response applied to the plain string shutdown-success
message (not a dict). -/
def execute_shutdown_command : Except PyErr PyVal :=
  generate_success_response (some (PyVal.str ("shutdown success.")))

/-! Model of json.loads, used by read_command (plugin.py line 136) to decode
the accumulated frame text. Recursive descent with explicit fuel so that every
definition is structurally recursive and evaluates by rfl. The subset parsed
is the subset this program can receive: null, booleans, integers, strings
(with the common escapes), arrays and objects. Floating-point literals and
unicode escapes are rejected by the model; no verified path supplies them. -/

/-- Skip JSON whitespace. -/
def skipWs : List Char → List Char
  | c :: cs => if c = ' ' ∨ c = '\n' ∨ c = '\t' ∨ c = '\r' then skipWs cs else c :: cs
  | [] => []

/-- Table of the JSON escape characters and their decoded forms (unicode
escapes unmodelled). -/
def jsonEscTable : List (Char × Char) :=
  [('"', '"'), ('\\', '\\'), ('/', '/'), ('n', '\n'),
   ('t', '\t'), ('r', '\r'), ('b', '\x08'), ('f', '\x0c')]

/-- Decode one JSON escape character via the table. -/
def jsonEsc (c : Char) : Option Char :=
  (jsonEscTable.find? fun p => p.fst = c).map Prod.snd

/-- Parse the remainder of a JSON string literal after the opening quote. -/
def parseStringLit : List Char → Option (String × List Char)
  | [] => Option.none
  | '"' :: cs => some ("", cs)
  | '\\' :: e :: cs =>
    match jsonEsc e with
    | some c => (parseStringLit cs).map fun p => (String.mk (c :: p.fst.data), p.snd)
    | Option.none => Option.none
  | c :: cs => (parseStringLit cs).map fun p => (String.mk (c :: p.fst.data), p.snd)

/-- Parse a run of decimal digits into a natural number (accumulator acc). -/
def parseDigits : List Char → Nat → Option (Nat × List Char)
  | c :: cs, acc =>
    if c.isDigit then
      match parseDigits cs (10 * acc + (c.toNat - 48)) with
      | some r => some r
      | Option.none => some (10 * acc + (c.toNat - 48), cs)
    else some (acc, c :: cs)
  | [], acc => some (acc, [])

/-- Parse an integer JSON number; a following dot or exponent marks a
floating-point literal, which the model rejects. -/
def parseIntLit (neg : Bool) (cs : List Char) : Option (PyVal × List Char) :=
  match cs with
  | c :: _ =>
    if c.isDigit then
      match parseDigits cs 0 with
      | some (n, rest) =>
        match rest with
        | '.' :: _ => Option.none
        | 'e' :: _ => Option.none
        | 'E' :: _ => Option.none
        | _ => some (PyVal.int (if neg then -(n : Int) else (n : Int)), rest)
      | Option.none => Option.none
    else Option.none
  | [] => Option.none

mutual

/-- Parse one JSON value; fuel bounds the recursion depth. -/
def parseVal : Nat → List Char → Option (PyVal × List Char)
  | 0, _ => Option.none
  | Nat.succ fuel, cs =>
    match skipWs cs with
    | 'n' :: 'u' :: 'l' :: 'l' :: r => some (PyVal.none, r)
    | 't' :: 'r' :: 'u' :: 'e' :: r => some (PyVal.bool true, r)
    | 'f' :: 'a' :: 'l' :: 's' :: 'e' :: r => some (PyVal.bool false, r)
    | '"' :: r => (parseStringLit r).map fun p => (PyVal.str p.fst, p.snd)
    | '[' :: r =>
      (match skipWs r with
       | ']' :: r2 => some (PyVal.list [], r2)
       | r2 => (parseItems fuel r2).map fun p => (PyVal.list p.fst, p.snd))
    | '\x7b' :: r =>
      (match skipWs r with
       | '\x7d' :: r2 => some (PyVal.dict [], r2)
       | r2 => (parseFields fuel r2).map fun p => (PyVal.dict p.fst, p.snd))
    | '-' :: r => parseIntLit true r
    | r => parseIntLit false r

/-- Parse the elements of a non-empty JSON array up to the closing bracket. -/
def parseItems : Nat → List Char → Option (List PyVal × List Char)
  | 0, _ => Option.none
  | Nat.succ fuel, cs =>
    match parseVal fuel cs with
    | some (v, r) =>
      (match skipWs r with
       | ',' :: r2 => (parseItems fuel r2).map fun p => (v :: p.fst, p.snd)
       | ']' :: r2 => some ([v], r2)
       | _ => Option.none)
    | Option.none => Option.none

/-- Parse the members of a non-empty JSON object up to the closing brace. -/
def parseFields : Nat → List Char → Option (List (String × PyVal) × List Char)
  | 0, _ => Option.none
  | Nat.succ fuel, cs =>
    match skipWs cs with
    | '"' :: r =>
      (match parseStringLit r with
       | some (k, r2) =>
         (match skipWs r2 with
          | ':' :: r3 =>
            (match parseVal fuel r3 with
             | some (v, r4) =>
               (match skipWs r4 with
                | ',' :: r5 => (parseFields fuel r5).map fun p => ((k, v) :: p.fst, p.snd)
                | '\x7d' :: r5 => some ([(k, v)], r5)
                | _ => Option.none)
             | Option.none => Option.none)
          | _ => Option.none)
       | Option.none => Option.none)
    | _ => Option.none

end

/-- Model of json.loads: parse the full text as one JSON value; any leftover
non-whitespace (or any syntax error) is a JSONDecodeError, which read_command
catches, so the model returns an Option. -/
def json_loads (s : String) : Option PyVal :=
  match parseVal (2 * s.length + 4) s.data with
  | some (v, r) => if (skipWs r).isEmpty then some v else Option.none
  | Option.none => Option.none

/-! Frame Reader and Frame Writer (plugin.py lines 111-174). The pipe is
modelled by a script of low-level ReadFile outcomes; each call either fails or
delivers a chunk of decoded text. In the source each chunk is
buffer.decode(utf-8) sliced to message_bytes.value characters; for the ASCII
traffic of this protocol the character count equals the byte count, so the
model carries the chunk text and uses its length for the short-read test. -/

/-- Outcome of one low-level ReadFile call on the input pipe. -/
inductive ReadEv where
  | fail
  | chunk (s : String)
deriving DecidableEq

/-- Accumulation loop of read_command (plugin.py lines 117-133): append chunk
texts until a chunk shorter than the 4096-byte buffer arrives; a failed
ReadFile aborts the whole read (read_command returns None). An exhausted
script models a host that never sends more data; the real call would block,
and the model reports no message. -/
def accumChunks : List ReadEv → Option String × List ReadEv
  | [] => (Option.none, [])
  | ReadEv.fail :: rest => (Option.none, rest)
  | ReadEv.chunk s :: rest =>
    if s.length < 4096 then (some s, rest)
    else
      match accumChunks rest with
      | (some t, r) => (some (s ++ t), r)
      | (Option.none, r) => (Option.none, r)

/-- Frame Reader read_command (plugin.py lines 111-147): accumulate chunks,
then json.loads the joined text; a JSONDecodeError (or any other exception)
is caught and turned into None. Returns the decoded command, if any, and the
unconsumed remainder of the read script. -/
def read_command (evs : List ReadEv) : Option PyVal × List ReadEv :=
  match accumChunks evs with
  | (some txt, rest) => (json_loads txt, rest)
  | (Option.none, rest) => (Option.none, rest)

/-- Frame Writer write_response (plugin.py lines 149-170): the exact text
written to the output pipe, json.dumps of the response followed by the
explicit end-of-message marker. Write errors are caught and swallowed in the
source; the model records the attempted output. -/
def writeWire (response : PyVal) : String :=
  dumps response ++ "<<END>>"

/-! Domain handlers (plugin.py lines 200-405). The config file and the remote
HTTP API are collaborators, modelled by an explicit environment HEnv. -/

/-- Result of requests.get as the handlers consume it: a status code and the
outcome of resp.json() (which may itself raise). -/
structure HttpResp where
  status : Int
  jsonBody : Except PyErr PyVal

/-- Environment of one handler invocation: whether the config file exists,
what json.load returns for it (or raises), and the HTTP collaborator, mapping
a URL to a response or a raised requests exception (PyErr.timeout models
requests.Timeout). -/
structure HEnv where
  configFileExists : Bool
  configJson : Except PyErr PyVal
  http : String → Except PyErr HttpResp

/-- Config-loading prologue shared by both domain handlers (plugin.py lines
296-299 and 353-356). The assignment to MRIVALS_API_KEY inside the function
body makes that name a local variable of the handler, so when the config file
does not exist the following truthiness test reads an unassigned local and
raises UnboundLocalError; the module-level MRIVALS_API_KEY = None is never
consulted. When the file exists, json.load runs (exceptions propagate) and
config.get returns the key or None. -/
def fetchApiKeyLocal (env : HEnv) : Except PyErr PyVal :=
  if env.configFileExists then do
    let config ← env.configJson
    pyDictGet config ("api_key")
  else
    Except.error (PyErr.unboundLocalError
      ("cannot access local variable \x27MRIVALS_API_KEY\x27 where it is not associated with a value"))

/-- Name extraction shared by the handlers (plugin.py lines 304-310 and
361-367): if the key is present in params and its value is not None, use
str(value); otherwise the built-in default. -/
def extractArgName (params : PyVal) (key dflt : String) : Except PyErr String := do
  let c ← pyContainsKey key params
  if c then do
    let v ← pyGetItem params key
    match v with
    | PyVal.none => pure dflt
    | w => pure (pyStrOf w)
  else pure dflt

/-- Python str.title() for ASCII text: first letter of every alphabetic run
uppercased, the rest lowercased. -/
def pyTitleAux : Bool → List Char → List Char
  | _, [] => []
  | prevAlpha, c :: cs =>
    if c.isAlpha then
      (if prevAlpha then c.toLower else c.toUpper) :: pyTitleAux true cs
    else c :: pyTitleAux false cs

/-- Python s.title(). -/
def pyTitle (s : String) : String := String.mk (pyTitleAux false s.data)

/-- All-digit run to a natural number, or None when empty or non-digit. -/
def digitsValAux : List Char → Nat → Option Nat
  | [], acc => some acc
  | c :: cs, acc =>
    if c.isDigit then digitsValAux cs (10 * acc + (c.toNat - 48)) else Option.none

/-- Python int(s) on a string: optional sign, decimal digits, surrounding
whitespace allowed; anything else raises ValueError. -/
def pyIntOfStr (s : String) : Except PyErr Int :=
  let bad : Except PyErr Int := Except.error (PyErr.valueError
    ("invalid literal for int() with base 10: \x27" ++ s ++ "\x27"))
  match s.trim.data with
  | '-' :: c :: cs =>
    (match digitsValAux (c :: cs) 0 with
     | some n => Except.ok (-(n : Int))
     | Option.none => bad)
  | '+' :: c :: cs =>
    (match digitsValAux (c :: cs) 0 with
     | some n => Except.ok (n : Int)
     | Option.none => bad)
  | c :: cs =>
    (match digitsValAux (c :: cs) 0 with
     | some n => Except.ok (n : Int)
     | Option.none => bad)
  | [] => bad

/-- Python int(v): identity on ints, 0/1 on bools, string parsing on strs,
TypeError elsewhere (floats do not occur in the model). -/
def pyInt : PyVal → Except PyErr Int
  | PyVal.int n => Except.ok n
  | PyVal.bool b => Except.ok (if b then 1 else 0)
  | PyVal.str s => pyIntOfStr s
  | w => Except.error (PyErr.typeError
      ("int() argument must be a string, a bytes-like object or a real number, not \x27"
        ++ pyTypeName w ++ "\x27"))

/-- Python sep.join(v): joins a list of strings (TypeError when an element is
not a string) or the characters of a string. -/
def pyJoin (sep : String) (v : PyVal) : Except PyErr String :=
  match v with
  | PyVal.list xs =>
    (match xs.mapM (fun x => match x with | PyVal.str s => some s | _ => Option.none) with
     | some ss => Except.ok (String.intercalate sep ss)
     | Option.none => Except.error (PyErr.typeError
         ("sequence item: expected str instance")))
  | PyVal.str s => Except.ok (String.intercalate sep (s.data.map fun c => String.mk [c]))
  | w => Except.error (PyErr.typeError
      ("can only join an iterable, not \x27" ++ pyTypeName w ++ "\x27"))

/-- Python p.strip(): whitespace-trimming, available only on strings. -/
def pyStripV : PyVal → Except PyErr String
  | PyVal.str s => Except.ok s.trim
  | w => Except.error (PyErr.attributeError
      ("\x27" ++ pyTypeName w ++ "\x27 object has no attribute \x27strip\x27"))

/-- The final filter-join of both summarizers: keep p.strip() for every truthy
p whose stripped form is non-empty (plugin.py lines 233 and 259). -/
def filterStripParts : List PyVal → Except PyErr (List String)
  | [] => Except.ok []
  | p :: ps =>
    if pyTruthy p then do
      let s ← pyStripV p
      let rest ← filterStripParts ps
      if s.isEmpty then pure rest else pure (s :: rest)
    else filterStripParts ps

/-- Voice summary builder summarize_character (plugin.py lines 200-233),
translated clause by clause; data.get raises AttributeError when the decoded
body is not a dict, and the final strip raises when a kept part (the bio
field) is not a string — both are caught by the calling handler. -/
def summarize_character (data : PyVal) (fallback_name : String) : Except PyErr String := do
  let name := pyOr (← pyDictGet data ("name")) (PyVal.str (pyTitle fallback_name))
  let real_name ← pyDictGet data ("real_name")
  let role := pyOr (← pyDictGet data ("role")) (PyVal.str ("Unknown role"))
  let attack_type := pyOr (← pyDictGet data ("attack_type")) (PyVal.str ("unknown attack type"))
  let difficulty := pyOr (← pyDictGet data ("difficulty")) (PyVal.str ("unknown difficulty"))
  let team_list := pyOr (← pyDictGet data ("team")) (PyVal.list [])
  let team ← if pyTruthy team_list then pyJoin (", ") team_list else pure ("no listed team")
  let bio := pyOr (pyOr (← pyDictGet data ("bio")) (← pyDictGet data ("lore"))) (PyVal.str (""))
  let abilities := pyOr (← pyDictGet data ("abilities")) (PyVal.list [])
  let ability_line ←
    match abilities with
    | PyVal.list (a :: _) => do
      let a0 := match a with | PyVal.dict d => PyVal.dict d | _ => PyVal.dict []
      let abil_name ← pyDictGetD a0 ("name") (PyVal.str ("Unnamed ability"))
      let abil_desc ← pyDictGetD a0 ("description") (PyVal.str (""))
      pure ("Their signature ability is \x27" ++ pyStrOf abil_name ++ "\x27: " ++ pyStrOf abil_desc)
    | _ => pure ("No abilities listed.")
  let p1 := pyStrOf name ++
    (if pyTruthy real_name then ", also known as " ++ pyStrOf real_name else "")
  let p2 := "is a " ++ pyStrOf role ++ " hero using " ++ pyStrOf attack_type ++
    " attacks on " ++ team ++ ", rated " ++ pyStrOf difficulty ++ " to play."
  let kept ← filterStripParts [PyVal.str p1, PyVal.str p2, bio, PyVal.str ability_line]
  pure (String.intercalate (" ") kept)

/-- Round a rational to the nearest integer, ties to even (the rounding CPython
applies when formatting; exact rational arithmetic stands in for the binary
double, whose representation error no verified path depends on). -/
def roundHalfEven (q : Rat) : Int :=
  let f : Int := q.floor
  let r : Rat := q - (f : Rat)
  if r < 1/2 then f
  else if (1 : Rat)/2 < r then f + 1
  else if f % 2 = 0 then f else f + 1

/-- Fixed-point rendering of a number of tenths. -/
def fmtTenthsNat (m : Nat) : String :=
  toString (m / 10) ++ "." ++ toString (m % 10)

/-- The format .1f applied to a quotient value. -/
def fmtRat1 (q : Rat) : String :=
  let n : Int := roundHalfEven (q * 10)
  if n < 0 then "-" ++ fmtTenthsNat n.natAbs else fmtTenthsNat n.natAbs

/-- Python true division of two ints: a rational, ZeroDivisionError on a zero
divisor. -/
def ratDiv (a b : Int) : Except PyErr Rat :=
  if b = 0 then Except.error PyErr.zeroDivisionError
  else Except.ok ((a : Rat) / (b : Rat))

/-- Voice summary builder summarize_player_stats (plugin.py lines 235-259),
translated clause by clause, including the source typo "toal": the successive
rebinding of data to overall_stats and then to unranked, the or-defaults that
can leave non-numeric strings for int() to choke on, and the per-match
averages computed with true division (ZeroDivisionError when total_matches
is 0). Every raise is caught by the calling handler. -/
def summarize_player_stats (data0 : PyVal) (fallback_name : String) : Except PyErr String := do
  let name ← pyDictGet data0 ("name")
  let data1 ← pyDictGet data0 ("overall_stats")
  let matchesB := pyOr (← pyDictGet data1 ("total_matches")) (PyVal.str (pyTitle fallback_name))
  let wins := pyOr (← pyDictGet data1 ("total_wins")) (PyVal.str ("unknown wins"))
  let data2 ← pyDictGet data1 ("unranked")
  let kills := pyOr (← pyDictGet data2 ("total_kills")) (PyVal.str ("unknown kills"))
  let assists := pyOr (← pyDictGet data2 ("total_assists")) (PyVal.str ("Unknown assists"))
  let deaths := pyOr (← pyDictGet data2 ("total_deaths")) (PyVal.str ("unknown deaths"))
  let time := pyOr (← pyDictGet data2 ("total_time_played")) (PyVal.str ("unknown time"))
  let mvp := pyOr (← pyDictGet data2 ("total_mvp")) (PyVal.str ("unknown mvp times"))
  let p1 := pyStrOf name ++ ", has played " ++ pyStrOf matchesB ++ " toal matches."
  let winsI ← pyInt wins
  let matchesI ← pyInt matchesB
  let q1 ← ratDiv winsI matchesI
  let killsI ← pyInt kills
  let q2 ← ratDiv killsI matchesI
  let p2 := "Their win rate is " ++ fmtRat1 (100 * q1) ++ "% with an average of " ++
    fmtRat1 q2 ++ " kills per match, "
  let deathsI ← pyInt deaths
  let q3 ← ratDiv deathsI matchesI
  let assistsI ← pyInt assists
  let q4 ← ratDiv assistsI matchesI
  let p3 := fmtRat1 q3 ++ " deaths per match, and " ++ fmtRat1 q4 ++ " assists per match. "
  let p4 := pyStrOf name ++ " has been the match MVP " ++ pyStrOf mvp ++
    " times. They have played Marvel Rivals for " ++ pyStrOf time ++ "."
  let kept ← filterStripParts [PyVal.str p1, PyVal.str p2, PyVal.str p3, PyVal.str p4]
  pure (String.intercalate (" ") kept)

/-- Singleton message payload, the dict literal passed to the builders by the
domain handlers. -/
def msgDict (m : String) : PyVal := PyVal.dict [(("message"), PyVal.str m)]

/-- Payload of the missing-API-key failure (plugin.py lines 302 and 359). -/
def missingKeyMsg : PyVal :=
  msgDict ("Missing API key. Add \x27api_key\x27 to config.json next to the EXE.")

/-- Try-block body of execute_get_character_info (plugin.py lines 313-342):
the HTTP call, the status-code ladder with its fixed failure messages, and on
200 the summarized success response. -/
def charInfoTry (env : HEnv) (character_name : String) : Except PyErr PyVal := do
  let resp ← env.http ("https://marvelrivalsapi.com/api/v1/heroes/hero/" ++ character_name)
  if resp.status = 401 then generate_failure_response (some (msgDict ("mrivals1 fail")))
  else if resp.status = 404 then generate_failure_response (some (msgDict ("mrivals2 fail")))
  else if resp.status = 429 then generate_failure_response (some (msgDict ("mrivals3 fail")))
  else if 500 ≤ resp.status then generate_failure_response (some (msgDict ("mod.io API5 request failed")))
  else if resp.status ≠ 200 then generate_failure_response (some (msgDict ("mod.io API2 request failed")))
  else do
    let data ← resp.jsonBody
    let summary ← summarize_character data character_name
    generate_success_response (some (msgDict ("Summary: " ++ summary)))

/-- Handler execute_get_character_info (plugin.py lines 293-348): config
prologue and truthiness test (both outside the try block, so their raises
propagate), name extraction, then the try block with its two except clauses
(requests.Timeout first, then the catch-all converting the exception text). -/
def execute_get_character_info (env : HEnv) (params : PyVal) : Except PyErr PyVal := do
  let key ← fetchApiKeyLocal env
  if ¬ pyTruthy key then
    generate_failure_response (some missingKeyMsg)
  else do
    let character_name ← extractArgName params ("character_name") ("ironman")
    match charInfoTry env character_name with
    | Except.ok v => Except.ok v
    | Except.error PyErr.timeout =>
      generate_failure_response (some (msgDict ("API Request timed out.")))
    | Except.error e =>
      generate_failure_response (some (msgDict ("Error retrieving character info: " ++ errStr e)))

/-- Try-block body of execute_get_player_stats (plugin.py lines 370-399),
with its own status-ladder messages. -/
def playerStatsTry (env : HEnv) (player_name : String) : Except PyErr PyVal := do
  let resp ← env.http ("https://marvelrivalsapi.com/api/v1/player/" ++ player_name)
  if resp.status = 401 then generate_failure_response (some (msgDict ("mrivals1 fail")))
  else if resp.status = 404 then generate_failure_response (some (msgDict ("mrivals2 fail")))
  else if resp.status = 429 then generate_failure_response (some (msgDict ("mrivals3 fail")))
  else if 500 ≤ resp.status then generate_failure_response (some (msgDict ("mrivals4 fails")))
  else if resp.status ≠ 200 then generate_failure_response (some (msgDict ("mrivals5 fails")))
  else do
    let data ← resp.jsonBody
    let summary ← summarize_player_stats data player_name
    generate_success_response (some (msgDict ("Summary: " ++ summary)))

/-- Handler execute_get_player_stats (plugin.py lines 350-405): same shape as
execute_get_character_info, with the player default jaddo11; the catch-all
message text is the character-info one, as in the source. -/
def execute_get_player_stats (env : HEnv) (params : PyVal) : Except PyErr PyVal := do
  let key ← fetchApiKeyLocal env
  if ¬ pyTruthy key then
    generate_failure_response (some missingKeyMsg)
  else do
    let player_name ← extractArgName params ("player_name") ("jaddo11")
    match playerStatsTry env player_name with
    | Except.ok v => Except.ok v
    | Except.error PyErr.timeout =>
      generate_failure_response (some (msgDict ("API Request timed out.")))
    | Except.error e =>
      generate_failure_response (some (msgDict ("Error retrieving character info: " ++ errStr e)))

/-! Dispatch loop main (plugin.py lines 40-108). -/

/-- Keys of the commands registry built in main (plugin.py lines 61-66), in
insertion order. -/
def registeredNames : List String :=
  ["initialize", "shutdown", "mrivals_get_character_info", "mrivals_get_player_stats"]

/-- Python membership test cmd in commands for the string-keyed registry:
strings are looked up, other hashable values are simply absent, unhashable
values (lists, dicts) raise TypeError. -/
def cmdInCommands : PyVal → Except PyErr Bool
  | PyVal.str s => Except.ok (s ∈ registeredNames)
  | PyVal.int _ => Except.ok false
  | PyVal.bool _ => Except.ok false
  | PyVal.none => Except.ok false
  | w => Except.error (PyErr.typeError ("unhashable type: \x27" ++ pyTypeName w ++ "\x27"))

/-- Test cmd in [INITIALIZE_COMMAND, SHUTDOWN_COMMAND] (plugin.py line 86):
list membership by equality, never raising. -/
def isLifecycle : PyVal → Bool
  | PyVal.str s => s = "initialize" ∨ s = "shutdown"
  | _ => false

/-- String name of a registered command value (registered values are
strings). -/
def cmdNameOf : PyVal → String
  | PyVal.str s => s
  | _ => ""

/-- Loop termination comparison cmd == SHUTDOWN_COMMAND (plugin.py lines 70
and 103). -/
def isShutdownCmd : PyVal → Bool
  | PyVal.str s => s = "shutdown"
  | _ => false

/-- Argument list the dispatch loop passes to a registered handler (plugin.py
lines 86-89): initialize and shutdown are called with no arguments; every
other registered command is called with exactly one argument, the
sub-command\x27s params value when the key is present, else a fresh empty
dict. The envelope\x27s messages and system_info keys are never extracted or
passed (the constants on lines 51-52 are defined and unused). -/
def handlerArgs (tool_call : PyVal) (cmdName : String) : Except PyErr (List PyVal) :=
  if cmdName = "initialize" ∨ cmdName = "shutdown" then Except.ok []
  else do
    let hasParams ← pyContainsKey ("params") tool_call
    if hasParams then do
      let p ← pyGetItem tool_call ("params")
      pure [p]
    else pure [PyVal.dict []]

/-- Invocation of a registry entry on an argument list (plugin.py lines 87
and 89). -/
def applyHandler (env : HEnv) (name : String) (args : List PyVal) : Except PyErr PyVal :=
  match name, args with
  | "initialize", [] => execute_initialize_command
  | "shutdown", [] => execute_shutdown_command
  | "mrivals_get_character_info", [p] => execute_get_character_info env p
  | "mrivals_get_player_stats", [p] => execute_get_player_stats env p
  | _, _ => Except.error (PyErr.typeError ("handler called with wrong arguments"))

/-- Body of the for-loop over tool_calls (plugin.py lines 81-95), threading
the pair (response, cmd): a sub-command with a func key updates cmd and
overwrites response with the handler result or the unknown-command failure;
one without a func key overwrites response with the malformed-input failure
and leaves cmd unchanged. The failure branches pass plain strings to
generate_failure_response, whose .copy() call then raises AttributeError. -/
def processToolCall (env : HEnv) (st : PyVal × PyVal) (tool_call : PyVal) :
    Except PyErr (PyVal × PyVal) := do
  let hasFunc ← pyContainsKey ("func") tool_call
  if hasFunc then do
    let cmd2 ← pyGetItem tool_call ("func")
    let isReg ← cmdInCommands cmd2
    if isReg then do
      let args ← handlerArgs tool_call (cmdNameOf cmd2)
      let r ← applyHandler env (cmdNameOf cmd2) args
      pure (r, cmd2)
    else do
      let r ← generate_failure_response
        (some (PyVal.str ("Plugin Error! Unknown command: " ++ pyStrOf cmd2)))
      pure (r, cmd2)
  else do
    let r ← generate_failure_response (some (PyVal.str ("Plugin Error! Malformed input.")))
    pure (r, st.snd)

/-- Processing of one decoded envelope (plugin.py lines 79-98): start from
response = None, fold the tool_calls batch through processToolCall when the
key is present, else overwrite response with the malformed-input failure
(again a plain string, so the builder raises). Returns the final response and
the final cmd. -/
def processInput (env : HEnv) (cmd : PyVal) (input : PyVal) :
    Except PyErr (PyVal × PyVal) := do
  let has ← pyContainsKey ("tool_calls") input
  if has then do
    let tcs ← pyGetItem input ("tool_calls")
    let items ← pyIter tcs
    items.foldlM (processToolCall env) (PyVal.none, cmd)
  else do
    let r ← generate_failure_response (some (PyVal.str ("Plugin Error! Malformed input.")))
    pure (r, cmd)

/-- Observable outcome of a run of main over a finite read script. -/
inductive RunOutcome where
  | finished (writes : List String)
  | crashed (e : PyErr) (writes : List String)
  | blocked (writes : List String)
  | fuelOut (writes : List String)
deriving DecidableEq

/-- The while-loop of main (plugin.py lines 70-105): read one command (a
failed or undecodable read logs and continues, writing nothing), process the
envelope, write exactly one framed response per envelope, then stop when the
last observed cmd equals shutdown. An uncaught exception from processing
aborts the run (crashed); an exhausted read script leaves the loop blocked in
ReadFile. Fuel bounds the number of iterations so the model is structurally
recursive; acc accumulates the framed texts written, in order. -/
def runLoop (env : HEnv) : Nat → PyVal → List ReadEv → List String → RunOutcome
  | 0, _, _, acc => RunOutcome.fuelOut acc
  | Nat.succ fuel, cmd, evs, acc =>
    if isShutdownCmd cmd then RunOutcome.finished acc
    else
      match evs with
      | [] => RunOutcome.blocked acc
      | _ :: _ =>
        match read_command evs with
        | (Option.none, rest) => runLoop env fuel cmd rest acc
        | (some input, rest) =>
          match processInput env cmd input with
          | Except.error e => RunOutcome.crashed e acc
          | Except.ok (resp, cmd2) =>
            let acc2 := acc ++ [writeWire resp]
            if isShutdownCmd cmd2 then RunOutcome.finished acc2
            else runLoop env fuel cmd2 rest acc2

/-- Entry point main: the loop starts with cmd = the empty string and an
empty write history. -/
def mainRun (env : HEnv) (fuel : Nat) (evs : List ReadEv) : RunOutcome :=
  runLoop env fuel (PyVal.str ("")) evs []

/-! Concrete environments and scripts used to evaluate the model. -/

/-- Environment in which the config file does not exist. -/
def envNoFile : HEnv :=
  ⟨false, Except.ok (PyVal.dict []), fun _ => Except.ok ⟨200, Except.ok (PyVal.dict [])⟩⟩

/-- Environment in which the config file exists but holds no api_key. -/
def envNoKey : HEnv :=
  ⟨true, Except.ok (PyVal.dict []), fun _ => Except.ok ⟨200, Except.ok (PyVal.dict [])⟩⟩

/-- Environment with a configured api_key whose HTTP collaborator answers
every request with status 404. -/
def envKey404 : HEnv :=
  ⟨true, Except.ok (PyVal.dict [(("api_key"), PyVal.str ("k"))]),
    fun _ => Except.ok ⟨404, Except.ok (PyVal.dict [])⟩⟩

/-- Wire text of an envelope batching a get_character_info sub-command
followed by a shutdown sub-command. -/
def scriptInfoThenShutdown : String :=
  "\x7b\"tool_calls\": [\x7b\"func\": \"mrivals_get_character_info\"\x7d, \x7b\"func\": \"shutdown\"\x7d]\x7d"

/-- Wire text of an envelope batching a shutdown sub-command followed by a
get_character_info sub-command. -/
def scriptShutdownThenInfo : String :=
  "\x7b\"tool_calls\": [\x7b\"func\": \"shutdown\"\x7d, \x7b\"func\": \"mrivals_get_character_info\"\x7d]\x7d"

/-- The AttributeError raised when generate_success_response or
generate_failure_response receives a plain string body. -/
def strCopyError : PyErr :=
  PyErr.attributeError ("\x27str\x27 object has no attribute \x27copy\x27")

/-- Tool call for get_character_info with an explicit params dict, as in the
spec scenario. -/
def tcCharInfo : PyVal :=
  PyVal.dict [(("func"), PyVal.str ("mrivals_get_character_info")),
    (("params"), PyVal.dict [(("character_name"), PyVal.str ("ironman"))])]

/-- Setting a key in a Python dict makes a lookup of that key yield exactly
the new value, wherever the key previously sat. -/
theorem dictLookup_dictSet (d : List (String × PyVal)) (k : String) (v : PyVal) :
    dictLookup (dictSet d k v) k = some v := by
  induction d with
  | nil => simp [dictSet, dictLookup]
  | cons e d ih =>
    obtain ⟨k0, v0⟩ := e
    by_cases h : k0 = k
    · simp [dictSet, dictLookup, h]
    · simp [dictSet, dictLookup, h, ih]

/-- C2: the claim says every invocation of the initialize handler returns a
success envelope. In the code, execute_initialize_command passes the plain
string initialize-success message to generate_success_response, whose
.copy() call raises AttributeError, so the handler raises instead of
returning any envelope (and the dispatch loop has no handler for the
exception). -/
theorem C2_initialize_handler_raises :
    execute_initialize_command = Except.error strCopyError := by
  rfl

/-- C4: for every payload dict, including one that already carries a success
key, both response builders return the payload with success overwritten to
the builder\x27s canonical flag, so a lookup of success on the result yields
true for the success builder and false for the failure builder. -/
theorem C4_builders_canonical_success_flag (d : List (String × PyVal)) :
    generate_success_response (some (PyVal.dict d)) =
      Except.ok (PyVal.dict (dictSet d ("success") (PyVal.bool true)))
    ∧ dictLookup (dictSet d ("success") (PyVal.bool true)) ("success") =
      some (PyVal.bool true)
    ∧ generate_failure_response (some (PyVal.dict d)) =
      Except.ok (PyVal.dict (dictSet d ("success") (PyVal.bool false)))
    ∧ dictLookup (dictSet d ("success") (PyVal.bool false)) ("success") =
      some (PyVal.bool false) :=
  ⟨rfl, dictLookup_dictSet d ("success") (PyVal.bool true),
    rfl, dictLookup_dictSet d ("success") (PyVal.bool false)⟩

/-- C1: the claim says a batch of n sub-commands produces n framed responses,
one written after each sub-command, and that a batch of a command followed by
shutdown writes two responses before the loop terminates. In the code the
write_response call sits outside the for-loop, so at most one response is
written per envelope; moreover the shutdown handler passes a plain string to
generate_success_response, which raises AttributeError. Evaluating the loop
on exactly such a batch (get_character_info, then shutdown): the run aborts
with the AttributeError and the write history is empty — zero responses, not
two. -/
theorem C1_batch_with_shutdown_crashes_zero_writes :
    mainRun envNoKey 3 [ReadEv.chunk scriptInfoThenShutdown] =
      RunOutcome.crashed strCopyError [] := by
  rfl

/-- C6: the claim says the loop terminates exactly when the last command name
of the batch is shutdown, and in particular keeps running when an earlier
sub-command is shutdown followed by a later one. Evaluating the loop on a
batch of shutdown followed by get_character_info: the shutdown handler raises
AttributeError at the earlier position, so the run aborts there — the worker
does not continue to the later sub-command, and no graceful
last-command-controlled termination happens. -/
theorem C6_early_shutdown_aborts_loop :
    mainRun envNoKey 3 [ReadEv.chunk scriptShutdownThenInfo] =
      RunOutcome.crashed strCopyError [] := by
  rfl

/-- C7: the claim says that with no obtainable API key, including when the
config file does not exist, both domain handlers return a failure envelope
and do not raise. In the code the assignment inside the isfile branch makes
MRIVALS_API_KEY a local variable, so when the file is absent the truthiness
test raises UnboundLocalError, which propagates out of the handler. -/
theorem C7_missing_config_file_raises (env : HEnv) (params : PyVal)
    (h : env.configFileExists = false) :
    execute_get_character_info env params =
      Except.error (PyErr.unboundLocalError
        ("cannot access local variable \x27MRIVALS_API_KEY\x27 where it is not associated with a value"))
    ∧ execute_get_player_stats env params =
      Except.error (PyErr.unboundLocalError
        ("cannot access local variable \x27MRIVALS_API_KEY\x27 where it is not associated with a value")) := by
  constructor
  · simp [execute_get_character_info, fetchApiKeyLocal, h, Bind.bind, Except.bind]
  · simp [execute_get_player_stats, fetchApiKeyLocal, h, Bind.bind, Except.bind]

/-- Witness for C7 at the concrete no-config-file environment. -/
theorem C7_missing_config_file_raises_witness :
    execute_get_character_info envNoFile (PyVal.dict []) =
      Except.error (PyErr.unboundLocalError
        ("cannot access local variable \x27MRIVALS_API_KEY\x27 where it is not associated with a value"))
    ∧ execute_get_player_stats envNoFile (PyVal.dict []) =
      Except.error (PyErr.unboundLocalError
        ("cannot access local variable \x27MRIVALS_API_KEY\x27 where it is not associated with a value")) :=
  C7_missing_config_file_raises envNoFile (PyVal.dict []) rfl

/-- C3 counterexample: the claim says an input whose accumulated text fails to
parse as JSON makes the worker emit a failure Response with a fixed
diagnostic. On the concrete non-JSON input text oops, read_command returns
None, main logs and continues, and the write history stays empty: no failure
Response (indeed no response at all) is emitted for the bad input. -/
theorem C3_parse_failure_counterexample :
    json_loads ("oops") = Option.none
    ∧ mainRun envNoKey 3 [ReadEv.chunk ("oops")] = RunOutcome.blocked [] :=
  ⟨rfl, rfl⟩

/-- C3 amended: for every input text that fails to parse as JSON (delivered
as one short chunk), the dispatch loop consumes it, writes no response at
all, does not crash, and simply continues with the next read; the treatment
is that of a transport-level failure, not the failure-Response treatment of a
missing-required-field envelope. -/
theorem C3_parse_failure_skips_iteration (env : HEnv) (fuel : Nat) (cmd : PyVal)
    (s : String) (rest : List ReadEv) (acc : List String)
    (hcmd : isShutdownCmd cmd = false)
    (hlen : s.length < 4096)
    (hparse : json_loads s = Option.none) :
    runLoop env (fuel + 1) cmd (ReadEv.chunk s :: rest) acc =
      runLoop env fuel cmd rest acc := by
  simp [runLoop, read_command, accumChunks, hcmd, hlen, hparse]

/-- Witness for C3 amended on the concrete input text oops. -/
theorem C3_parse_failure_skips_iteration_witness :
    runLoop envNoKey 2 (PyVal.str ("")) [ReadEv.chunk ("oops"), ReadEv.fail] [] =
      runLoop envNoKey 1 (PyVal.str ("")) [ReadEv.fail] [] :=
  C3_parse_failure_skips_iteration envNoKey 1 (PyVal.str ("")) ("oops") [ReadEv.fail] []
    rfl (by decide) rfl

/-- C5 counterexample: the claim says the Frame Reader detects end of message
by the same convention the Frame Writer applies. Concretely: the reader
accepts the two-character message of an empty JSON object, which carries no
end marker (no decomposition of it ends in the marker), while the writer
emits that same object with an explicit trailing marker — the reader\x27s
convention is the short read, the writer\x27s is the marker. -/
theorem C5_framing_asymmetry_counterexample :
    read_command [ReadEv.chunk ("\x7b\x7d")] = (some (PyVal.dict []), [])
    ∧ writeWire (PyVal.dict []) = "\x7b\x7d<<END>>"
    ∧ ¬ (∃ p, ("\x7b\x7d" : String) = p ++ "<<END>>") := by
  refine ⟨rfl, rfl, ?_⟩
  rintro ⟨p, hp⟩
  have h := congrArg String.length hp
  rw [String.length_append] at h
  have e1 : ("\x7b\x7d" : String).length = 2 := rfl
  have e2 : ("<<END>>" : String).length = 7 := rfl
  rw [e1, e2] at h
  omega

/-- C5 amended: the two conventions both appear, asymmetrically: the writer
always appends the explicit end marker to its frame, while the reader
terminates on any short chunk, marker or not. -/
theorem C5_writer_marker_reader_short_read (v : PyVal) (s : String)
    (h : s.length < 4096) :
    (∃ p, writeWire v = p ++ "<<END>>")
    ∧ accumChunks [ReadEv.chunk s] = (some s, []) := by
  refine ⟨⟨dumps v, rfl⟩, ?_⟩
  simp [accumChunks, h]

/-- Witness for C5 amended at a concrete response and chunk. -/
theorem C5_writer_marker_reader_short_read_witness :
    (∃ p, writeWire PyVal.none = p ++ "<<END>>")
    ∧ accumChunks [ReadEv.chunk ("\x7b\x7d")] = (some ("\x7b\x7d"), []) :=
  C5_writer_marker_reader_short_read PyVal.none ("\x7b\x7d") (by decide)

/-- C8 counterexample: the claim says registered non-lifecycle handlers are
invoked with the three arguments (parameters, context, system_info). On a
concrete get_character_info tool call the dispatch passes exactly one
argument — the params value — and in particular never a three-element
argument list. -/
theorem C8_single_argument_counterexample :
    handlerArgs tcCharInfo ("mrivals_get_character_info") =
      Except.ok [PyVal.dict [(("character_name"), PyVal.str ("ironman"))]]
    ∧ ∀ a b c : PyVal,
        handlerArgs tcCharInfo ("mrivals_get_character_info") ≠ Except.ok [a, b, c] := by
  refine ⟨rfl, ?_⟩
  intro a b c h
  rw [show handlerArgs tcCharInfo ("mrivals_get_character_info") =
      Except.ok [PyVal.dict [(("character_name"), PyVal.str ("ironman"))]] from rfl] at h
  simp at h

/-- C8 amended: every registered command other than initialize and shutdown
is invoked with exactly one argument, the sub-command\x27s params value when
present and a fresh empty dict otherwise (the envelope\x27s messages and
system_info are never passed); initialize and shutdown are invoked with no
arguments. -/
theorem C8_dispatch_arity (d : List (String × PyVal)) (name : String)
    (_hreg : name ∈ registeredNames)
    (hnl : ¬ (name = "initialize" ∨ name = "shutdown")) :
    handlerArgs (PyVal.dict d) name =
      Except.ok [(dictLookup d ("params")).getD (PyVal.dict [])]
    ∧ handlerArgs (PyVal.dict d) ("initialize") = Except.ok []
    ∧ handlerArgs (PyVal.dict d) ("shutdown") = Except.ok [] := by
  refine ⟨?_, rfl, rfl⟩
  cases h : dictLookup d ("params") with
  | none => simp [handlerArgs, hnl, pyContainsKey, pyGetItem, h, Bind.bind, Except.bind,
      pure, Except.pure]
  | some p => simp [handlerArgs, hnl, pyContainsKey, pyGetItem, h, Bind.bind, Except.bind,
      pure, Except.pure]

/-- Witness for C8 amended at the concrete get_character_info tool call. -/
theorem C8_dispatch_arity_witness :
    handlerArgs (PyVal.dict [(("func"), PyVal.str ("mrivals_get_character_info")),
        (("params"), PyVal.dict [(("character_name"), PyVal.str ("ironman"))])])
        ("mrivals_get_character_info") =
      Except.ok [(dictLookup [(("func"), PyVal.str ("mrivals_get_character_info")),
        (("params"), PyVal.dict [(("character_name"), PyVal.str ("ironman"))])]
        ("params")).getD (PyVal.dict [])]
    ∧ handlerArgs (PyVal.dict [(("func"), PyVal.str ("mrivals_get_character_info")),
        (("params"), PyVal.dict [(("character_name"), PyVal.str ("ironman"))])])
        ("initialize") = Except.ok []
    ∧ handlerArgs (PyVal.dict [(("func"), PyVal.str ("mrivals_get_character_info")),
        (("params"), PyVal.dict [(("character_name"), PyVal.str ("ironman"))])])
        ("shutdown") = Except.ok [] :=
  C8_dispatch_arity
    [(("func"), PyVal.str ("mrivals_get_character_info")),
      (("params"), PyVal.dict [(("character_name"), PyVal.str ("ironman"))])]
    ("mrivals_get_character_info") (by decide) (by decide)

/-- C9 counterexample: the claim says a 404 from the remote API yields a
failure Response whose message indicates not-found. With the 404-answering
collaborator the handler returns the fixed failure message mrivals2 fail,
and the text not found does not occur in it. -/
theorem C9_404_message_counterexample :
    execute_get_character_info envKey404 (PyVal.dict []) =
      Except.ok (PyVal.dict [(("message"), PyVal.str ("mrivals2 fail")),
        (("success"), PyVal.bool false)])
    ∧ strIncludes ("not found") ("mrivals2 fail") = false :=
  ⟨rfl, by decide⟩

/-- C9 amended: for every get_character_info request whose remote answer has
status 404 (given an obtainable, truthy API key), the handler returns a
failure Response whose message is the fixed string mrivals2 fail. -/
theorem C9_404_fixed_failure_message (env : HEnv) (params : PyVal)
    (cfg : List (String × PyVal)) (key : PyVal) (nm : String) (r : HttpResp)
    (hfile : env.configFileExists = true)
    (hjson : env.configJson = Except.ok (PyVal.dict cfg))
    (hkey : dictLookup cfg ("api_key") = some key)
    (htruthy : pyTruthy key = true)
    (hname : extractArgName params ("character_name") ("ironman") = Except.ok nm)
    (hhttp : env.http ("https://marvelrivalsapi.com/api/v1/heroes/hero/" ++ nm) = Except.ok r)
    (hstatus : r.status = 404) :
    execute_get_character_info env params =
      Except.ok (PyVal.dict [(("message"), PyVal.str ("mrivals2 fail")),
        (("success"), PyVal.bool false)]) := by
  obtain ⟨st, body⟩ := r
  simp only at hstatus
  subst hstatus
  simp [execute_get_character_info, fetchApiKeyLocal, hfile, hjson, pyDictGet, hkey,
    htruthy, hname, charInfoTry, hhttp, Bind.bind, Except.bind,
    generate_failure_response, msgDict, pyCopy, pySetItem, dictSet]

/-- Witness for C9 amended at the concrete 404 environment. -/
theorem C9_404_fixed_failure_message_witness :
    execute_get_character_info envKey404 (PyVal.dict [(("character_name"), PyVal.str ("ironman"))]) =
      Except.ok (PyVal.dict [(("message"), PyVal.str ("mrivals2 fail")),
        (("success"), PyVal.bool false)]) :=
  C9_404_fixed_failure_message envKey404
    (PyVal.dict [(("character_name"), PyVal.str ("ironman"))])
    [(("api_key"), PyVal.str ("k"))] (PyVal.str ("k")) ("ironman")
    ⟨404, Except.ok (PyVal.dict [])⟩ rfl rfl rfl rfl rfl rfl rfl

/-- C10: an envelope whose tool_calls array is empty runs no handler and
builds no success or failure envelope (the response variable keeps its
initial None), yet the loop still performs its one write per envelope: the
serialized None, so the text null followed by the end marker goes out, and
the loop then continues. -/
theorem C10_empty_batch_null_write (env : HEnv) (cmd : PyVal)
    (d : List (String × PyVal)) (fuel : Nat) (s : String) (rest : List ReadEv)
    (acc : List String)
    (hd : dictLookup d ("tool_calls") = some (PyVal.list []))
    (hcmd : isShutdownCmd cmd = false)
    (hs : json_loads s = some (PyVal.dict d))
    (hlen : s.length < 4096) :
    processInput env cmd (PyVal.dict d) = Except.ok (PyVal.none, cmd)
    ∧ writeWire PyVal.none = "null<<END>>"
    ∧ runLoop env (fuel + 1) cmd (ReadEv.chunk s :: rest) acc =
        runLoop env fuel cmd rest (acc ++ ["null<<END>>"]) := by
  have hpi : processInput env cmd (PyVal.dict d) = Except.ok (PyVal.none, cmd) := by
    simp [processInput, pyContainsKey, hd, pyGetItem, pyIter, Bind.bind, Except.bind,
      pure, Except.pure]
  refine ⟨hpi, rfl, ?_⟩
  simp [runLoop, read_command, accumChunks, hlen, hs, hpi, hcmd, writeWire, dumps]

/-- Witness for C10 at the concrete empty-batch envelope. -/
theorem C10_empty_batch_null_write_witness :
    processInput envNoKey (PyVal.str ("")) (PyVal.dict [(("tool_calls"), PyVal.list [])]) =
      Except.ok (PyVal.none, PyVal.str (""))
    ∧ writeWire PyVal.none = "null<<END>>"
    ∧ runLoop envNoKey 2 (PyVal.str ("")) [ReadEv.chunk ("\x7b\"tool_calls\": []\x7d")] [] =
        runLoop envNoKey 1 (PyVal.str ("")) [] ["null<<END>>"] :=
  C10_empty_batch_null_write envNoKey (PyVal.str (""))
    [(("tool_calls"), PyVal.list [])] 1 ("\x7b\"tool_calls\": []\x7d") [] []
    rfl rfl rfl (by decide)
